import Mathlib

/-!
Shallow embedding of the `ballotbuddies` Django application's core logic:
the alert `Profile` (staleness and alert policy), the `Message` draft
lifecycle, the `Voter` registry (status fetch, friends, save), and the
explore API pagination helpers.  Times and durations are modelled as
signed microsecond counts (Python `datetime`/`timedelta` arithmetic is
exact at microsecond resolution); database rows are modelled as explicit
records and lists of records; fallible Python code returns `Option` or
`Except`.
-/

namespace BallotBuddies

/-- Microseconds per day, the resolution of Python `timedelta`. -/
def usPerDay : Int := 86400000000

/-- A Python `timedelta`, as a signed count of microseconds. -/
abbrev Timedelta := Int

/-- The `.days` attribute of a Python `timedelta`: floor division by one
day (Python floor division rounds toward negative infinity). -/
def Timedelta.days (t : Timedelta) : Int :=
  Int.fdiv t usPerDay

/-- `timedelta(days=n)` as microseconds. -/
def timedeltaOfDays (n : Int) : Timedelta :=
  n * usPerDay

/-- Modelled from the spec: `buddies/types.py` (the `Progress` value type)
is not part of the sources; the spec says the election metadata carries
`days`, the integer days from now until the election (negative if past). -/
structure Election where
  days : Int
deriving DecidableEq, Repr

/-- Modelled from the spec: `buddies/types.py` is not part of the sources;
the spec says `Progress` carries the ordered list of outstanding pipeline
actions and the election metadata.  Only the truthiness of `actions` and
`election.days` are consumed by the alert policy. -/
structure Progress where
  actions : List String
  election : Election
deriving DecidableEq, Repr

/-- The slice of `buddies.Voter` that `Profile.should_alert` reads:
`voter.complete` (all identity fields present) and `voter.progress`. -/
structure VoterData where
  complete : Bool
  progress : Progress
deriving DecidableEq, Repr

/-- The `alerts.Profile` model row.  `last_alerted`/`last_viewed` are
`none` before their first assignment (Django `auto_now_add` happens at
insert; in-memory they can be unset). -/
structure Profile where
  always_alert : Bool
  never_alert : Bool
  last_alerted : Option Int
  last_viewed : Option Int
  staleness : Timedelta
  will_alert : Bool
deriving DecidableEq, Repr

/-- `Profile.should_alert` (alerts/models.py): the alert decision table,
evaluated top to bottom.  `if self.voter.progress.actions` is Python list
truthiness, hence the nonemptiness test. -/
def Profile.should_alert (p : Profile) (voter : VoterData) : Bool :=
  if p.never_alert then false
  else if p.always_alert then true
  else if voter.complete then
    if voter.progress.actions ≠ [] then
      if 0 < voter.progress.election.days ∧ voter.progress.election.days < 7 then
        decide (timedeltaOfDays 1 < p.staleness)
      else
        decide (timedeltaOfDays 14 < p.staleness)
    else
      decide (timedeltaOfDays 90 < p.staleness)
  else
    decide (timedeltaOfDays 30 < p.staleness)

/-- The alert policy as the specification words it: first match wins, with
the incomplete-voter rule listed last.  Used to compare against the source
definition `Profile.should_alert`. -/
def shouldAlertSpec (p : Profile) (voter : VoterData) : Bool :=
  if p.never_alert then false
  else if p.always_alert then true
  else if voter.complete ∧ voter.progress.actions ≠ [] ∧
      0 < voter.progress.election.days ∧ voter.progress.election.days < 7 then
    decide (timedeltaOfDays 1 < p.staleness)
  else if voter.complete ∧ voter.progress.actions ≠ [] then
    decide (timedeltaOfDays 14 < p.staleness)
  else if voter.complete then
    decide (timedeltaOfDays 90 < p.staleness)
  else
    decide (timedeltaOfDays 30 < p.staleness)

/-- `Profile._staleness` (alerts/models.py): defaults unset timestamps to
`now` (Python `x or now`: a datetime is always truthy, `None` is falsy),
takes the smaller elapsed delta, and keeps only whole days
(`timedelta(days=delta.days)`).  Returns the duration together with the
profile whose timestamp fields were defaulted in place. -/
def Profile.stalenessCalc (p : Profile) (now : Int) : Timedelta × Profile :=
  let la := p.last_alerted.getD now
  let lv := p.last_viewed.getD now
  let delta := min (now - la) (now - lv)
  (timedeltaOfDays (Timedelta.days delta),
   { p with last_alerted := some la, last_viewed := some lv })

/-- A Python exception class, as far as `contextlib.suppress(ValueError)`
distinguishes them. -/
inductive PyErr where
  | valueError
  | otherError
deriving DecidableEq, Repr

/-- `Profile.save` (alerts/models.py): recomputes `staleness`, then inside
`suppress(ValueError)` recomputes `will_alert = can_alert and
should_alert`.  `can_alert` reads the draft message from the database and
may raise, so it is passed as an `Except` oracle; `should_alert` is pure
given the voter data.  A suppressed `ValueError` leaves `will_alert`
unchanged; any other exception propagates and the save never reaches
`super().save()`. -/
def Profile.save (p : Profile) (now : Int) (voter : VoterData)
    (canAlert : Except PyErr Bool) : Except PyErr Profile :=
  let pr := p.stalenessCalc now
  let p2 := { pr.2 with staleness := pr.1 }
  match canAlert with
  | Except.ok b => Except.ok { p2 with will_alert := b && p2.should_alert voter }
  | Except.error PyErr.valueError => Except.ok p2
  | Except.error e => Except.error e

/-- UTF-8 encoding of one code point, as byte values (`str.encode()`). -/
def utf8Bytes (c : Char) : List Nat :=
  let n := c.toNat
  if n < 128 then [n]
  else if n < 2048 then [192 + n / 64, 128 + n % 64]
  else if n < 65536 then [224 + n / 4096, 128 + n / 64 % 64, 128 + n % 64]
  else [240 + n / 262144, 128 + n / 4096 % 64, 128 + n / 64 % 64, 128 + n % 64]

/-- UTF-8 encoding of a string. -/
def strUtf8 (s : String) : List Nat :=
  (s.toList.map utf8Bytes).flatten

/-- The URL-safe base64 alphabet (RFC 4648 with `-` and `_`). -/
def base64urlAlphabet : String :=
  "ABCDEFGHIJKLMNOPQRSTUVWXYZabcdefghijklmnopqrstuvwxyz0123456789-_"

/-- The URL-safe base64 digit for a 6-bit value. -/
def base64Char (n : Nat) : Char :=
  base64urlAlphabet.toList.getD n 'A'

/-- `urlsafe_b64encode` with the trailing `=` padding stripped, as
`.strip("=")` leaves it (padding only ever appears at the end). -/
def base64urlNoPad : List Nat → List Char
  | [] => []
  | [b1] =>
    [base64Char (b1 / 4), base64Char (b1 % 4 * 16)]
  | [b1, b2] =>
    [base64Char (b1 / 4), base64Char (b1 % 4 * 16 + b2 / 16), base64Char (b2 % 16 * 4)]
  | b1 :: b2 :: b3 :: rest =>
    base64Char (b1 / 4) :: base64Char (b1 % 4 * 16 + b2 / 16) ::
      base64Char (b2 % 16 * 4 + b3 / 64) :: base64Char (b3 % 64) :: base64urlNoPad rest

/-- A JSON body returned by the elections-status API, as far as
`Voter.update_status` inspects it: an optional opaque `id`, an optional
`message`, and the rest of the payload (opaque). -/
structure RespBody where
  id : Option String
  message : Option String
  payload : Nat
deriving DecidableEq, Repr

/-- An HTTP response from the elections-status API. -/
structure HttpResponse where
  status_code : Nat
  body : RespBody
deriving DecidableEq, Repr

/-- The `buddies.Voter` model row.  `id` is `none` before the first
`super().save()` assigns a primary key; `friends` holds the primary keys
of the voter's friends; `zip_code` is `none` when unset. -/
structure VoterRec where
  id : Option Nat
  first_name : String
  last_name : String
  zip_code : Option String
  birth_date : Option Nat
  slug : String
  status : Option RespBody
  updated : Option Int
  friends : Finset Nat
deriving DecidableEq

/-- `Voter._status` (buddies/models.py): `(self.status or {}).get("id", "")`. -/
def VoterRec.statusId (v : VoterRec) : String :=
  match v.status with
  | none => ""
  | some b => b.id.getD ""

/-- `Voter.update_status` (buddies/models.py).  The HTTP response is an
input (the network is external).  Result `none` models the uncaught
`KeyError` when a 202 body lacks `"message"`; otherwise the result is the
updated voter together with the returned `(changed, message)` pair. -/
def VoterRec.update_status (v : VoterRec) (now : Int) (response : HttpResponse) :
    Option (VoterRec × Bool × String) :=
  let previous_status := v.statusId
  if response.status_code = 202 then
    match response.body.message with
    | none => none
    | some msg => some ({ v with updated := some now }, false, msg)
  else if response.status_code ≠ 200 then
    some (v, false, "")
  else
    let v2 := { v with status := some response.body, updated := some now }
    some (v2, decide (v2.statusId ≠ previous_status), "")

/-- `Voter._slugify` (buddies/models.py): base64url of
`first_name + last_name + str(zip_code)` (Python `str(None)` is the
string `"None"`), with `=` padding stripped. -/
def VoterRec.slugify (v : VoterRec) : String :=
  let zipStr := match v.zip_code with
    | none => "None"
    | some z => z
  let fingerprint := v.first_name ++ v.last_name ++ zipStr
  String.mk (base64urlNoPad (strUtf8 fingerprint))

/-- `Voter.save` (buddies/models.py): recompute `slug`; if the voter
already has a primary key (`if self.id:`), remove itself from its own
`friends` relation; then `super().save()`, which assigns a fresh primary
key `newId` when the row is new.  (Django cannot store many-to-many rows
for an unsaved instance, so a voter with `id = none` has no `friends`
rows; theorems state that as a hypothesis.) -/
def VoterRec.save (v : VoterRec) (newId : Nat) : VoterRec :=
  let v1 := { v with slug := v.slugify }
  let v2 := match v1.id with
    | some i => { v1 with friends := v1.friends.erase i }
    | none => v1
  match v2.id with
  | some _ => v2
  | none => { v2 with id := some newId }

/-- The `alerts.Message` model row.  `activity` is the JSON mapping from
voter id to activity line. -/
structure Msg where
  id : Nat
  profileId : Nat
  activity : List (Nat × String)
  sent : Bool
  sent_at : Option Int
deriving DecidableEq, Repr

/-- The Message table, with the sequence used for fresh primary keys.
The list order stands in for the query order (`Meta.ordering`). -/
structure MsgDB where
  msgs : List Msg
  nextId : Nat
deriving DecidableEq, Repr

/-- The filter `profile=profile, sent=False`. -/
def isDraftFor (pid : Nat) (m : Msg) : Bool :=
  m.profileId == pid && !m.sent

/-- `self.filter(profile=profile, sent=False)` over the table. -/
def draftsFor (db : MsgDB) (pid : Nat) : List Msg :=
  db.msgs.filter (isDraftFor pid)

/-- A freshly created draft row (`get_or_create` defaults: empty
activity, unsent, no `sent_at`). -/
def newDraft (nid pid : Nat) : Msg :=
  { id := nid, profileId := pid, activity := [], sent := false, sent_at := none }

/-- `MessageManager.get_draft` (alerts/models.py).  `if not message:` uses
`Message.__bool__`, which is truthiness of `activity`, so an existing
empty draft also falls through to `get_or_create`; `get_or_create` then
re-queries and either returns the unique matching row, creates one, or
raises `MultipleObjectsReturned` (the `Except.error` case) when several
rows match. -/
def MessageManager.get_draft (db : MsgDB) (pid : Nat) : Except Unit (Msg × MsgDB) :=
  let message0 := (draftsFor db pid).head?
  let falsy : Bool := match message0 with
    | none => true
    | some m => m.activity.isEmpty
  if falsy then
    match draftsFor db pid with
    | [] =>
      let m := newDraft db.nextId pid
      Except.ok (m, { msgs := db.msgs ++ [m], nextId := db.nextId + 1 })
    | [m] => Except.ok (m, db)
    | _ => Except.error ()
  else
    match message0 with
    | some m => Except.ok (m, db)
    | none => Except.error ()

/-- `Message.dismissed` (alerts/models.py): `if self.sent_at:` (a datetime
is truthy exactly when present), then `if self.sent:`, else `None`. -/
def Msg.dismissed (m : Msg) : Option Bool :=
  if m.sent_at.isSome then some false
  else if m.sent then some true
  else none

/-- `Message.mark_sent`: sets `sent` and stamps `sent_at`. -/
def Msg.mark_sent (m : Msg) (now : Int) : Msg :=
  { m with sent := true, sent_at := some now }

/-- `Message.mark_read`: sets `sent` without stamping `sent_at`. -/
def Msg.mark_read (m : Msg) : Msg :=
  { m with sent := true }

/-- A result object from the proposals/positions API, as far as `_match`
inspects it. -/
structure ExpItem where
  name : String
  description : String
  electionName : String
  districtName : String
deriving DecidableEq, Repr

/-- One page of the paginated proposals/positions API: the API-reported
total `count` and this page's `results`.  The `next` link is modelled by
the position in the page list (the last page's `next` is null). -/
structure ApiPage where
  count : Nat
  results : List ExpItem
deriving DecidableEq, Repr

/-- Substring test on character lists (Python `in` on strings). -/
def listIsInfix (needle haystack : List Char) : Bool :=
  haystack.tails.any (fun t => needle.isPrefixOf t)

/-- `_match` (explore/helpers.py): case-insensitive substring search over
the concatenation of name, description, election name and district name. -/
def matchesQuery (text : String) (item : ExpItem) : Bool :=
  listIsInfix text.toLower.toList
    (item.name.toLower ++ item.description.toLower ++
      item.electionName.toLower ++ item.districtName.toLower).toList

/-- The page-size query parameter `get_proposals` puts in the URL:
`"&limit=1000" if limit else "&limit=1"` (Python `if limit` is truthiness
of the integer). -/
def proposalsPageSize (limit : Nat) : Nat :=
  if limit ≠ 0 then 1000 else 1

/-- The `while url:` loop of `get_proposals`.  Each fetched page comes
paired with the elapsed wall-clock reading `round(time() - start, 1)`
taken after processing it, in tenths of a second; the loop breaks once
`len(items) >= limit`, or once `elapsed > 10` seconds, and otherwise
follows the `next` link until it is null. -/
def proposalsLoop (q : String) (limit : Nat) :
    List (ApiPage × Nat) → Nat → List ExpItem → Nat × List ExpItem
  | [], total, items => (total, items)
  | (page, elapsed) :: rest, _, items =>
    let total := page.count
    let items := if q ≠ "" then items ++ page.results.filter (matchesQuery q)
      else items ++ page.results
    if limit ≤ items.length then (total, items)
    else if 100 < elapsed then (total, items)
    else proposalsLoop q limit rest total items

/-- `get_proposals` (explore/helpers.py): pages through the API collecting
(filtered) results, returning `(total, items)`.  The page list is the
sequence of pages the API serves for the built URL. -/
def get_proposals (q : String) (limit : Nat) (pages : List (ApiPage × Nat)) :
    Nat × List ExpItem :=
  proposalsLoop q limit pages 0 []

/-- The page-size query parameter `get_positions` puts in the URL. -/
def positionsPageSize (limit : Nat) : Nat :=
  if limit ≠ 0 then 1000 else 1

/-- The `while url:` loop of `get_positions`; the source duplicates the
`get_proposals` loop verbatim. -/
def positionsLoop (q : String) (limit : Nat) :
    List (ApiPage × Nat) → Nat → List ExpItem → Nat × List ExpItem
  | [], total, items => (total, items)
  | (page, elapsed) :: rest, _, items =>
    let total := page.count
    let items := if q ≠ "" then items ++ page.results.filter (matchesQuery q)
      else items ++ page.results
    if limit ≤ items.length then (total, items)
    else if 100 < elapsed then (total, items)
    else positionsLoop q limit rest total items

/-- `get_positions` (explore/helpers.py). -/
def get_positions (q : String) (limit : Nat) (pages : List (ApiPage × Nat)) :
    Nat × List ExpItem :=
  positionsLoop q limit pages 0 []

/-- `Profile.Meta.ordering` (alerts/models.py): the literal ordering key
list `["-staleness"]`. -/
def profileMetaOrdering : List String :=
  ["-staleness"]

/-- Django's comparison for a single ordering key: a leading `-` sorts the
named column descending, otherwise ascending.  Only the `staleness` column
is relevant here. -/
def djangoLe (key : String) (a b : Profile) : Bool :=
  if key = "staleness" then decide (a.staleness ≤ b.staleness)
  else if key = "-staleness" then decide (b.staleness ≤ a.staleness)
  else true

/-- Stable insertion into a list sorted by `le`. -/
def insertOrdered (le : Profile → Profile → Bool) (p : Profile) :
    List Profile → List Profile
  | [] => [p]
  | q :: qs => if le p q then p :: q :: qs else q :: insertOrdered le p qs

/-- Stable sort by `le` (insertion sort). -/
def sortProfiles (le : Profile → Profile → Bool) : List Profile → List Profile
  | [] => []
  | p :: ps => insertOrdered le p (sortProfiles le ps)

/-- The default listing of `Profile` rows: the table sorted by the model's
`Meta.ordering` key. -/
def defaultProfileListing (ps : List Profile) : List Profile :=
  sortProfiles (djangoLe (profileMetaOrdering.headD "")) ps

/-- C1: `Profile.should_alert` evaluates its rules top to bottom with first
match winning: `never_alert` forces `false`; then `always_alert` forces
`true`; then a complete voter with outstanding actions and an election
strictly between 0 and 7 days away alerts iff staleness exceeds 1 day; a
complete voter with outstanding actions outside that window alerts iff
staleness exceeds 14 days; a complete voter with no outstanding actions
alerts iff staleness exceeds 90 days; an incomplete voter alerts iff
staleness exceeds 30 days. -/
theorem C1_should_alert_decision_table (p : Profile) (voter : VoterData) :
    p.should_alert voter = shouldAlertSpec p voter := by
  unfold Profile.should_alert shouldAlertSpec
  split_ifs <;> tauto

/-- C2: on every save of a `Profile` whose defaulted timestamps are not
later than `now`, the recomputed staleness equals the minimum of
`now - last_alerted` and `now - last_viewed` floored to whole days, it is
nonnegative, and it is zero on the first save when both timestamps are
unset. -/
theorem C2_staleness_on_save (p : Profile) (now : Int) (voter : VoterData) (b : Bool)
    (hla : p.last_alerted.getD now ≤ now) (hlv : p.last_viewed.getD now ≤ now) :
    ∃ q, p.save now voter (Except.ok b) = Except.ok q ∧
      q.staleness =
        (min (now - p.last_alerted.getD now) (now - p.last_viewed.getD now)).fdiv usPerDay
          * usPerDay ∧
      0 ≤ q.staleness ∧
      (p.last_alerted = none → p.last_viewed = none → q.staleness = 0) := by
  refine ⟨_, rfl, ?_, ?_, ?_⟩
  · simp [Profile.save, Profile.stalenessCalc, timedeltaOfDays, Timedelta.days]
  · simp only [Profile.save, Profile.stalenessCalc, timedeltaOfDays, Timedelta.days]
    have h1 : 0 ≤ now - p.last_alerted.getD now := by omega
    have h2 : 0 ≤ now - p.last_viewed.getD now := by omega
    have h3 : 0 ≤ min (now - p.last_alerted.getD now) (now - p.last_viewed.getD now) :=
      le_min h1 h2
    have h4 := Int.fdiv_nonneg h3 (by norm_num [usPerDay] : (0:Int) ≤ usPerDay)
    exact mul_nonneg h4 (by norm_num [usPerDay])
  · intro ha hv
    simp [Profile.save, Profile.stalenessCalc, timedeltaOfDays, Timedelta.days, ha, hv,
      Int.zero_fdiv]

/-- C2 witness: a profile alerted and viewed three and a half days ago has
staleness of exactly three whole days after a save. -/
theorem C2_staleness_on_save_witness :
    ∃ q,
      Profile.save
        { always_alert := false, never_alert := false,
          last_alerted := some 0, last_viewed := some 0,
          staleness := 0, will_alert := false }
        302400000000
        { complete := true, progress := { actions := [], election := { days := 30 } } }
        (Except.ok false) = Except.ok q ∧
      q.staleness = (min (302400000000 - (some (0:Int)).getD 302400000000)
        (302400000000 - (some (0:Int)).getD 302400000000)).fdiv usPerDay * usPerDay ∧
      0 ≤ q.staleness ∧
      ((some (0:Int) = none) → (some (0:Int) = none) → q.staleness = 0) :=
  C2_staleness_on_save
    { always_alert := false, never_alert := false,
      last_alerted := some 0, last_viewed := some 0,
      staleness := 0, will_alert := false }
    302400000000
    { complete := true, progress := { actions := [], election := { days := 30 } } }
    false (by decide) (by decide)

/-- C3: `Voter.update_status` returns a `(changed, message)` pair for every
well-formed response (never raises): on 202 it returns `(False, message)`
and stamps `updated`; on any other non-200 code it returns `(False, "")`
and changes nothing; on 200 it replaces `status` wholesale with the body,
stamps `updated`, and the boolean reports whether the opaque status id
changed. -/
theorem C3_update_status_cases (v : VoterRec) (now : Int) (resp : HttpResponse)
    (hwf : resp.status_code = 202 → resp.body.message.isSome) :
    ∃ v2 changed msg, v.update_status now resp = some (v2, changed, msg) ∧
      (resp.status_code = 202 →
        changed = false ∧ some msg = resp.body.message ∧
          v2 = { v with updated := some now }) ∧
      (resp.status_code ≠ 202 → resp.status_code ≠ 200 →
        v2 = v ∧ changed = false ∧ msg = "") ∧
      (resp.status_code = 200 →
        v2 = { v with status := some resp.body, updated := some now } ∧ msg = "" ∧
          changed = decide ((resp.body.id.getD "") ≠ v.statusId)) := by
  unfold VoterRec.update_status
  by_cases h202 : resp.status_code = 202
  · rcases hm : resp.body.message with _ | msg
    · exact absurd (hwf h202) (by simp [hm])
    · refine ⟨{ v with updated := some now }, false, msg, ?_, ?_, ?_, ?_⟩
      · simp [h202, hm]
      · exact fun _ => ⟨rfl, by simp [hm], rfl⟩
      · exact fun h _ => absurd h202 h
      · intro h200
        rw [h200] at h202
        exact absurd h202 (by norm_num)
  · by_cases h200 : resp.status_code = 200
    · refine ⟨{ v with status := some resp.body, updated := some now },
        decide ((resp.body.id.getD "") ≠ v.statusId), "", ?_, ?_, ?_, ?_⟩
      · simp [h202, h200, VoterRec.statusId]
      · exact fun h => absurd h h202
      · exact fun _ h => absurd h200 h
      · exact fun _ => ⟨rfl, rfl, by simp [VoterRec.statusId]⟩
    · refine ⟨v, false, "", ?_, ?_, ?_, ?_⟩
      · simp [h202, h200]
      · exact fun h => absurd h h202
      · exact fun _ _ => ⟨rfl, rfl, rfl⟩
      · exact fun h => absurd h h200

/-- C3 witness: a 404 response leaves a concrete voter untouched and
returns `(False, "")`. -/
theorem C3_update_status_cases_witness :
    ∃ v2 changed msg,
      VoterRec.update_status
        { id := some 1, first_name := "Jane", last_name := "Doe",
          zip_code := some "48103", birth_date := some 10000, slug := "",
          status := none, updated := none, friends := ∅ }
        5 { status_code := 404, body := { id := none, message := none, payload := 0 } }
        = some (v2, changed, msg) ∧
      ((404 = 202) →
        changed = false ∧ some msg = none ∧
          v2 = { id := some 1, first_name := "Jane", last_name := "Doe",
                 zip_code := some "48103", birth_date := some 10000, slug := "",
                 status := none, updated := some 5, friends := ∅ }) ∧
      ((404 ≠ 202) → (404 ≠ 200) →
        v2 = { id := some 1, first_name := "Jane", last_name := "Doe",
               zip_code := some "48103", birth_date := some 10000, slug := "",
               status := none, updated := none, friends := ∅ } ∧
          changed = false ∧ msg = "") ∧
      ((404 = 200) →
        v2 = { id := some 1, first_name := "Jane", last_name := "Doe",
               zip_code := some "48103", birth_date := some 10000, slug := "",
               status := some { id := none, message := none, payload := 0 },
               updated := some 5, friends := ∅ } ∧ msg = "" ∧
          changed = decide ((Option.getD (none : Option String) "") ≠
            VoterRec.statusId
              { id := some 1, first_name := "Jane", last_name := "Doe",
                zip_code := some "48103", birth_date := some 10000, slug := "",
                status := none, updated := none, friends := ∅ })) :=
  C3_update_status_cases
    { id := some 1, first_name := "Jane", last_name := "Doe",
      zip_code := some "48103", birth_date := some 10000, slug := "",
      status := none, updated := none, friends := ∅ }
    5 { status_code := 404, body := { id := none, message := none, payload := 0 } }
    (by decide)

/-- C5 (amended): on every save `will_alert` is recomputed as
`can_alert AND should_alert`; a `ValueError` raised during that evaluation
is swallowed, the save completes and `will_alert` keeps its previous
value; any other error propagates and the save does not complete. -/
theorem C5_will_alert_error_handling (p : Profile) (now : Int) (voter : VoterData) (b : Bool) :
    (∃ q, p.save now voter (Except.ok b) = Except.ok q ∧
      q.will_alert = (b && q.should_alert voter)) ∧
    (∃ q, p.save now voter (Except.error PyErr.valueError) = Except.ok q ∧
      q.will_alert = p.will_alert) ∧
    p.save now voter (Except.error PyErr.otherError) =
      Except.error PyErr.otherError := by
  refine ⟨⟨_, rfl, ?_⟩, ⟨_, rfl, ?_⟩, rfl⟩
  · simp [Profile.save, Profile.should_alert]
  · simp [Profile.save, Profile.stalenessCalc]

/-- C5 counterexample: an error other than `ValueError` raised while
recomputing `will_alert` is not swallowed — `suppress(ValueError)` lets it
propagate, so the save does not complete. -/
theorem C5_counterexample :
    Profile.save
      { always_alert := false, never_alert := false,
        last_alerted := some 0, last_viewed := some 0,
        staleness := 0, will_alert := true }
      0 { complete := true, progress := { actions := [], election := { days := 3 } } }
      (Except.error PyErr.otherError)
      = Except.error PyErr.otherError ∧
    (Except.error PyErr.otherError : Except PyErr Profile).isOk = false := by
  exact ⟨rfl, rfl⟩

/-- C6: immediately after `Voter.save()` the voter does not appear in its
own `friends` set, however a self-link was introduced before the save.
The hypothesis is the ORM fact that an unsaved row (`id = none`) cannot
yet own many-to-many rows. -/
theorem C6_never_own_friend (v : VoterRec) (newId : Nat) (i : Nat)
    (h0 : v.id = none → v.friends = ∅)
    (hid : (v.save newId).id = some i) :
    i ∉ (v.save newId).friends := by
  unfold VoterRec.save at hid ⊢
  rcases hv : v.id with _ | j
  · simp only [hv] at hid ⊢
    simp only [h0 hv]
    exact Finset.not_mem_empty i
  · simp only [hv] at hid ⊢
    simp only [Option.some.injEq] at hid
    subst hid
    exact Finset.not_mem_erase _ _

/-- A concrete voter who ended up in its own friends set. -/
def selfLinkedVoter : VoterRec :=
  { id := some 1, first_name := "Ann", last_name := "Lee",
    zip_code := some "48823", birth_date := some 7000, slug := "",
    status := none, updated := none, friends := {1, 2} }

/-- C6 witness: saving the self-linked voter strips the self-link. -/
theorem C6_never_own_friend_witness :
    (selfLinkedVoter.id = none → selfLinkedVoter.friends = ∅) ∧
    (selfLinkedVoter.save 7).id = some 1 ∧
    1 ∉ (selfLinkedVoter.save 7).friends :=
  ⟨by simp [selfLinkedVoter], by rfl,
    C6_never_own_friend selfLinkedVoter 7 1 (by simp [selfLinkedVoter]) (by rfl)⟩

/-- C7: when at most one draft exists for a profile, `get_draft` succeeds,
leaves exactly one draft in the table, and a second call with no
intervening send returns the very same message and changes nothing. -/
theorem C7_get_draft_idempotent (db : MsgDB) (pid : Nat)
    (h : (draftsFor db pid).length ≤ 1) :
    ∃ m db2, MessageManager.get_draft db pid = Except.ok (m, db2) ∧
      (draftsFor db2 pid).length = 1 ∧
      MessageManager.get_draft db2 pid = Except.ok (m, db2) := by
  rcases hd : draftsFor db pid with _ | ⟨m, rest⟩
  · -- no draft yet: the first call creates one
    refine ⟨newDraft db.nextId pid,
      { msgs := db.msgs ++ [newDraft db.nextId pid], nextId := db.nextId + 1 },
      ?_, ?_, ?_⟩
    · simp [MessageManager.get_draft, hd]
    · have h0 : db.msgs.filter (isDraftFor pid) = [] := hd
      simp [draftsFor, List.filter_append, h0, isDraftFor, newDraft]
    · have h0 : db.msgs.filter (isDraftFor pid) = [] := hd
      have hd2 : draftsFor
          { msgs := db.msgs ++ [newDraft db.nextId pid], nextId := db.nextId + 1 } pid
          = [newDraft db.nextId pid] := by
        simp [draftsFor, List.filter_append, h0, isDraftFor, newDraft]
      simp only [MessageManager.get_draft, hd2]
      simp [newDraft]
  · -- one draft exists (the length bound rules out more)
    have hrest : rest = [] := by
      have := h
      rw [hd] at this
      simpa using this
    subst hrest
    refine ⟨m, db, ?_, ?_, ?_⟩
    · by_cases hact : m.activity.isEmpty
      · simp [MessageManager.get_draft, hd, hact]
      · simp [MessageManager.get_draft, hd, hact]
    · simp [hd]
    · by_cases hact : m.activity.isEmpty
      · simp [MessageManager.get_draft, hd, hact]
      · simp [MessageManager.get_draft, hd, hact]

/-- A table with a single nonempty draft for profile 3. -/
def draftTable : MsgDB :=
  { msgs := [{ id := 10, profileId := 3,
               activity := [(4, "registered to vote")],
               sent := false, sent_at := none }],
    nextId := 11 }

/-- C7 witness: on a table holding one draft for profile 3, both calls
return that draft and the table keeps exactly one draft. -/
theorem C7_get_draft_idempotent_witness :
    (draftsFor draftTable 3).length ≤ 1 ∧
    ∃ m db2, MessageManager.get_draft draftTable 3 = Except.ok (m, db2) ∧
      (draftsFor db2 3).length = 1 ∧
      MessageManager.get_draft db2 3 = Except.ok (m, db2) :=
  ⟨by decide, C7_get_draft_idempotent draftTable 3 (by decide)⟩

/-- C9: `Message.dismissed` is the tri-state read-back of `(sent,
sent_at)`: `false` whenever `sent_at` is stamped (as `mark_sent` leaves
it), `true` when `sent` without a stamp (as `mark_read` leaves it), and
`none` for a fresh draft before either transition. -/
theorem C9_dismissed_tristate (m : Msg) (now : Int) (nid pid : Nat) :
    (m.sent_at.isSome = true → m.dismissed = some false) ∧
    (m.sent = true → m.sent_at = none → m.dismissed = some true) ∧
    (newDraft nid pid).dismissed = none ∧
    (m.mark_sent now).dismissed = some false ∧
    (m.sent_at = none → m.mark_read.dismissed = some true) := by
  refine ⟨?_, ?_, ?_, ?_, ?_⟩
  · intro h
    simp [Msg.dismissed, h]
  · intro h1 h2
    simp [Msg.dismissed, h1, h2]
  · simp [Msg.dismissed, newDraft]
  · simp [Msg.dismissed, Msg.mark_sent]
  · intro h
    simp [Msg.dismissed, Msg.mark_read, h]

/-- A message marked read: sent without a delivery stamp. -/
def readMessage : Msg :=
  { id := 10, profileId := 3, activity := [(4, "registered to vote")],
    sent := true, sent_at := none }

/-- C9 witness: the read message has `dismissed = true`. -/
theorem C9_dismissed_tristate_witness :
    readMessage.sent = true ∧ readMessage.sent_at = none ∧
    readMessage.dismissed = some true :=
  ⟨rfl, rfl, (C9_dismissed_tristate readMessage 0 0 0).2.1 rfl rfl⟩

/-- The ordering key `"-staleness"` compares by descending staleness. -/
theorem djangoLe_desc (a b : Profile) :
    djangoLe "-staleness" a b = decide (b.staleness ≤ a.staleness) := by
  rfl

/-- Inserting into a list keeps the elements, up to permutation. -/
theorem insertOrdered_perm (le : Profile → Profile → Bool) (p : Profile) :
    ∀ l : List Profile, (insertOrdered le p l).Perm (p :: l)
  | [] => List.Perm.refl _
  | q :: qs => by
    unfold insertOrdered
    by_cases hle : le p q
    · rw [if_pos hle]
    · rw [if_neg hle]
      exact ((insertOrdered_perm le p qs).cons q).trans (List.Perm.swap p q qs)

/-- Sorting keeps the elements, up to permutation. -/
theorem sortProfiles_perm (le : Profile → Profile → Bool) :
    ∀ l : List Profile, (sortProfiles le l).Perm l
  | [] => List.Perm.refl _
  | p :: ps =>
    (insertOrdered_perm le p (sortProfiles le ps)).trans
      ((sortProfiles_perm le ps).cons p)

/-- Inserting with the `"-staleness"` key preserves descending order. -/
theorem insertOrdered_pairwise_desc (p : Profile) :
    ∀ l : List Profile, l.Pairwise (fun a b => b.staleness ≤ a.staleness) →
      (insertOrdered (djangoLe "-staleness") p l).Pairwise
        (fun a b => b.staleness ≤ a.staleness)
  | [], _ => by simp [insertOrdered]
  | q :: qs, h => by
    rw [List.pairwise_cons] at h
    obtain ⟨hq, hqs⟩ := h
    unfold insertOrdered
    by_cases hle : djangoLe "-staleness" p q = true
    · have hpq : q.staleness ≤ p.staleness := by
        rw [djangoLe_desc] at hle
        exact of_decide_eq_true hle
      rw [if_pos hle, List.pairwise_cons]
      refine ⟨?_, List.pairwise_cons.mpr ⟨hq, hqs⟩⟩
      intro b hb
      rcases List.mem_cons.mp hb with rfl | hb2
      · exact hpq
      · exact le_trans (hq b hb2) hpq
    · have hqp : p.staleness ≤ q.staleness := by
        rw [djangoLe_desc] at hle
        have h2 : ¬ (q.staleness ≤ p.staleness) := fun hc => hle (decide_eq_true hc)
        exact (not_le.mp h2).le
      rw [if_neg hle, List.pairwise_cons]
      refine ⟨?_, insertOrdered_pairwise_desc p qs hqs⟩
      intro b hb
      rcases List.mem_cons.mp
          ((insertOrdered_perm (djangoLe "-staleness") p qs).mem_iff.mp hb) with rfl | hb2
      · exact hqp
      · exact hq b hb2

/-- Insertion sort with the `"-staleness"` key yields descending order. -/
theorem sortProfiles_pairwise_desc :
    ∀ l : List Profile,
      (sortProfiles (djangoLe "-staleness") l).Pairwise
        (fun a b => b.staleness ≤ a.staleness)
  | [] => List.Pairwise.nil
  | p :: ps => insertOrdered_pairwise_desc p _ (sortProfiles_pairwise_desc ps)

/-- A profile with zero staleness. -/
def freshProfile : Profile :=
  { always_alert := false, never_alert := false, last_alerted := none,
    last_viewed := none, staleness := 0, will_alert := false }

/-- A profile five days stale. -/
def staleProfile : Profile :=
  { always_alert := false, never_alert := false, last_alerted := none,
    last_viewed := none, staleness := timedeltaOfDays 5, will_alert := false }

/-- C4 counterexample: `Meta.ordering = ["-staleness"]` sorts descending,
so the default listing of a fresh and a five-day-stale profile presents
the stalest first, not the freshest. -/
theorem C4_counterexample :
    freshProfile.staleness < staleProfile.staleness ∧
    defaultProfileListing [freshProfile, staleProfile] =
      [staleProfile, freshProfile] := by
  constructor
  · decide
  · rfl

/-- C4 (amended): the default listing of `Profile` records is by
descending staleness — stalest first — and is a permutation of the
records given. -/
theorem C4_default_ordering_desc (ps : List Profile) :
    (defaultProfileListing ps).Pairwise (fun a b => b.staleness ≤ a.staleness) ∧
    (defaultProfileListing ps).Perm ps := by
  unfold defaultProfileListing
  exact ⟨sortProfiles_pairwise_desc ps, sortProfiles_perm _ ps⟩

/-- With an empty query, a page that leaves the collected count below the
limit and an elapsed reading within budget, the proposals loop keeps
paging: it extends the accumulator with the page's results verbatim and
carries the page's `count` forward. -/
theorem proposalsLoop_step (limit : Nat) (page : ApiPage) (t : Nat)
    (rest : List (ApiPage × Nat)) (t0 : Nat) (acc : List ExpItem)
    (h1 : acc.length + page.results.length < limit) (h2 : t ≤ 100) :
    proposalsLoop "" limit ((page, t) :: rest) t0 acc =
      proposalsLoop "" limit rest page.count (acc ++ page.results) := by
  conv_lhs => unfold proposalsLoop
  simp only [ne_eq, not_true_eq_false, ite_false, List.length_append]
  rw [if_neg (by omega), if_neg (by omega)]

/-- The same step fact for the positions loop. -/
theorem positionsLoop_step (limit : Nat) (page : ApiPage) (t : Nat)
    (rest : List (ApiPage × Nat)) (t0 : Nat) (acc : List ExpItem)
    (h1 : acc.length + page.results.length < limit) (h2 : t ≤ 100) :
    positionsLoop "" limit ((page, t) :: rest) t0 acc =
      positionsLoop "" limit rest page.count (acc ++ page.results) := by
  conv_lhs => unfold positionsLoop
  simp only [ne_eq, not_true_eq_false, ite_false, List.length_append]
  rw [if_neg (by omega), if_neg (by omega)]

/-- With an empty query, every page fast and the limit unreachable, the
proposals loop pages to the end, returning every result verbatim and the
API-reported count. -/
theorem proposalsLoop_collects_all (limit c : Nat) :
    ∀ (pages : List (ApiPage × Nat)) (t0 : Nat) (acc : List ExpItem),
      (∀ pt ∈ pages, pt.2 ≤ 100) →
      (∀ pt ∈ pages, pt.1.count = c) →
      acc.length + ((pages.map fun pt => pt.1.results).flatten).length < limit →
      proposalsLoop "" limit pages t0 acc =
        ((if pages.isEmpty then t0 else c),
          acc ++ (pages.map fun pt => pt.1.results).flatten)
  | [], t0, acc, _, _, _ => by simp [proposalsLoop]
  | (page, t) :: rest, t0, acc, hfast, hcount, hlim => by
    have ht : t ≤ 100 := hfast (page, t) (List.mem_cons_self _ _)
    have hc : page.count = c := hcount (page, t) (List.mem_cons_self _ _)
    have hflatlen : ((((page, t) :: rest).map fun pt => pt.1.results).flatten).length
        = page.results.length + ((rest.map fun pt => pt.1.results).flatten).length := by
      simp
    rw [proposalsLoop_step limit page t rest t0 acc (by omega) ht]
    rw [proposalsLoop_collects_all limit c rest page.count (acc ++ page.results)
      (fun pt hpt => hfast pt (List.mem_cons_of_mem _ hpt))
      (fun pt hpt => hcount pt (List.mem_cons_of_mem _ hpt))
      (by simp only [List.length_append]; omega)]
    rw [hc]
    simp [List.append_assoc]

/-- The same paging-to-the-end fact for the positions loop. -/
theorem positionsLoop_collects_all (limit c : Nat) :
    ∀ (pages : List (ApiPage × Nat)) (t0 : Nat) (acc : List ExpItem),
      (∀ pt ∈ pages, pt.2 ≤ 100) →
      (∀ pt ∈ pages, pt.1.count = c) →
      acc.length + ((pages.map fun pt => pt.1.results).flatten).length < limit →
      positionsLoop "" limit pages t0 acc =
        ((if pages.isEmpty then t0 else c),
          acc ++ (pages.map fun pt => pt.1.results).flatten)
  | [], t0, acc, _, _, _ => by simp [positionsLoop]
  | (page, t) :: rest, t0, acc, hfast, hcount, hlim => by
    have ht : t ≤ 100 := hfast (page, t) (List.mem_cons_self _ _)
    have hc : page.count = c := hcount (page, t) (List.mem_cons_self _ _)
    have hflatlen : ((((page, t) :: rest).map fun pt => pt.1.results).flatten).length
        = page.results.length + ((rest.map fun pt => pt.1.results).flatten).length := by
      simp
    rw [positionsLoop_step limit page t rest t0 acc (by omega) ht]
    rw [positionsLoop_collects_all limit c rest page.count (acc ++ page.results)
      (fun pt hpt => hfast pt (List.mem_cons_of_mem _ hpt))
      (fun pt hpt => hcount pt (List.mem_cons_of_mem _ hpt))
      (by simp only [List.length_append]; omega)]
    rw [hc]
    simp [List.append_assoc]

/-- C8: the fetchers stop as soon as the collected count reaches the limit
or the 10-second budget is exceeded (checked between pages), returning the
partial results and the last page's API-reported count rather than an
error; and with an empty query, every page within budget, a consistent
API-reported count `c`, and a limit larger than the total number of items,
`get_proposals` and `get_positions` page through every pagination link,
return all pages' results unfiltered, and report the API's count as the
total. -/
theorem C8_pagination_collects_all (pages : List (ApiPage × Nat)) (limit c : Nat)
    (hne : pages ≠ [])
    (hfast : ∀ pt ∈ pages, pt.2 ≤ 100)
    (hcount : ∀ pt ∈ pages, pt.1.count = c)
    (hlim : ((pages.map fun pt => pt.1.results).flatten).length < limit) :
    (get_proposals "" limit pages = (c, (pages.map fun pt => pt.1.results).flatten) ∧
      get_positions "" limit pages = (c, (pages.map fun pt => pt.1.results).flatten)) ∧
    (∀ (page : ApiPage) (t : Nat) (rest : List (ApiPage × Nat)),
      limit ≤ page.results.length →
      get_proposals "" limit ((page, t) :: rest) = (page.count, page.results) ∧
      get_positions "" limit ((page, t) :: rest) = (page.count, page.results)) ∧
    (∀ (page : ApiPage) (t : Nat) (rest : List (ApiPage × Nat)),
      page.results.length < limit → 100 < t →
      get_proposals "" limit ((page, t) :: rest) = (page.count, page.results) ∧
      get_positions "" limit ((page, t) :: rest) = (page.count, page.results)) := by
  have hE : pages.isEmpty = false := by
    cases pages
    · exact absurd rfl hne
    · rfl
  refine ⟨⟨?_, ?_⟩, ?_, ?_⟩
  · unfold get_proposals
    rw [proposalsLoop_collects_all limit c pages 0 [] hfast hcount (by simpa using hlim)]
    rw [hE]
    simp
  · unfold get_positions
    rw [positionsLoop_collects_all limit c pages 0 [] hfast hcount (by simpa using hlim)]
    rw [hE]
    simp
  · intro page t rest hstop
    constructor
    · unfold get_proposals
      conv_lhs => unfold proposalsLoop
      simp only [ne_eq, not_true_eq_false, ite_false, List.nil_append]
      rw [if_pos hstop]
    · unfold get_positions
      conv_lhs => unfold positionsLoop
      simp only [ne_eq, not_true_eq_false, ite_false, List.nil_append]
      rw [if_pos hstop]
  · intro page t rest hsmall hslow
    constructor
    · unfold get_proposals
      conv_lhs => unfold proposalsLoop
      simp only [ne_eq, not_true_eq_false, ite_false, List.nil_append]
      rw [if_neg (by omega), if_pos hslow]
    · unfold get_positions
      conv_lhs => unfold positionsLoop
      simp only [ne_eq, not_true_eq_false, ite_false, List.nil_append]
      rw [if_neg (by omega), if_pos hslow]

/-- A sample proposal result. -/
def sampleItem (n : String) : ExpItem :=
  { name := n, description := "d", electionName := "State General",
    districtName := "Lansing" }

/-- A three-page mock API with five items in total and count 5 on every
page, each page well inside the 10-second budget. -/
def samplePages : List (ApiPage × Nat) :=
  [({ count := 5, results := [sampleItem "A", sampleItem "B"] }, 10),
   ({ count := 5, results := [sampleItem "C"] }, 20),
   ({ count := 5, results := [sampleItem "D", sampleItem "E"] }, 30)]

/-- C8 witness: `get_proposals("", 1000)` on the three-page mock API
returns all five items and the API-reported total of 5. -/
theorem C8_pagination_collects_all_witness :
    get_proposals "" 1000 samplePages =
      (5, (samplePages.map fun pt => pt.1.results).flatten) ∧
    get_positions "" 1000 samplePages =
      (5, (samplePages.map fun pt => pt.1.results).flatten) :=
  (C8_pagination_collects_all samplePages 1000 5 (by decide) (by decide) (by decide)
    (by decide)).1

/-- C10: calling either fetcher with `limit = 0` builds the URL with page
size 1 and stops right after the first page, because `len(items) >= 0`
holds vacuously; only the first page's (possibly filtered) items are
returned, whatever pages remain. -/
theorem C10_limit_zero_single_page (q : String) (page : ApiPage) (t : Nat)
    (rest : List (ApiPage × Nat)) :
    proposalsPageSize 0 = 1 ∧ positionsPageSize 0 = 1 ∧
    get_proposals q 0 ((page, t) :: rest) =
      (page.count, if q = "" then page.results
        else page.results.filter (matchesQuery q)) ∧
    get_positions q 0 ((page, t) :: rest) =
      (page.count, if q = "" then page.results
        else page.results.filter (matchesQuery q)) := by
  refine ⟨rfl, rfl, ?_, ?_⟩
  · unfold get_proposals proposalsLoop
    by_cases hq : q = ""
    · simp [hq]
    · simp [hq]
  · unfold get_positions positionsLoop
    by_cases hq : q = ""
    · simp [hq]
    · simp [hq]

end BallotBuddies
